import Mathlib

/-!
# Verification of the TTSpamer account-processing orchestrator

Shallow embedding of `src/main.py` (TheAzot/TTSpamer): the bounded-concurrency
account-processing orchestrator, the login retry loop, the engagement-cycle
loop, and session teardown.  External collaborators (the browser driver, the
CAPTCHA solver, the random number generator) are modelled as oracle inputs:
a behaviour record says, for each call the code makes, what the collaborator
would do (succeed, report failure, or raise).  Exceptions are modelled with
`Option`/`Except`; observable side effects are recorded as an event trace.
-/

namespace TTSpamer

/-- Configuration fields of `BotConfig` that the orchestrator core reads
(`main.py` lines 33-59).  Delay fields are irrelevant to control flow and
omitted. -/
structure BotConfig where
  max_login_attempts : Nat
  cycles_per_account : Nat
  min_next_clicks : Nat
  max_next_clicks : Nat
  max_concurrent_accounts : Nat
deriving DecidableEq, Repr

/-- The defaults written by `BotConfig._set_defaults` (`main.py` lines 33-59). -/
def defaultConfig : BotConfig :=
  { max_login_attempts := 3
    cycles_per_account := 10
    min_next_clicks := 1
    max_next_clicks := 3
    max_concurrent_accounts := 3 }

/-- An account: `identifier:secret`, from `FileHandler.read_accounts`. -/
structure Account where
  email : String
  password : String
deriving DecidableEq, Repr

/-- A proxy entry as built by `FileHandler.read_proxies`. -/
structure Proxy where
  server : String
  username : Option String := none
  password : Option String := none
deriving DecidableEq, Repr

/-- The fields of the session dictionary that `close_session` inspects with
`"browser" in session_data` / `"playwright" in session_data`
(`main.py` lines 761-764).  A session returned by a successful `login` always
has both (`main.py` lines 238-246); `close_session` must also tolerate partial
dictionaries. -/
structure SessionFields where
  hasBrowser : Bool
  hasPlaywright : Bool
deriving DecidableEq, Repr

/-- Observable events of one account task, in program order. -/
inductive Event where
  /-- `login` enters the body of the while-loop for attempt `n`
  (`main.py` line 203). -/
  | attemptStart (n : Nat)
  /-- `login` closed the browser and stopped the driver of failed attempt `n`
  (`main.py` lines 249-250 or 255-258). -/
  | attemptRelease (n : Nat)
  /-- `process_account` took the `else` branch: login returned `None`
  (`main.py` line 785). -/
  | loginFailed
  /-- `process_account` invoked `process_videos` (`main.py` line 779). -/
  | pvInvoked
  /-- Cycle `c` navigated to the For You feed (`main.py` line 279). -/
  | cycleGoto (c : Nat)
  /-- Cycle `c` ran `_open_first_video` (`main.py` line 293). -/
  | cycleOpenVideo (c : Nat)
  /-- Cycle `c` ran `_open_comments`, which reported `ok` (`main.py` line 301). -/
  | cycleCommentsOpened (c : Nat) (ok : Bool)
  /-- Cycle `c` reached `random.choice(self.comments)` for the new comment
  (`main.py` line 312). -/
  | cycleChooseComment (c : Nat)
  /-- Cycle `c` ran `_post_comment`, which reported `ok` (`main.py` line 313). -/
  | cyclePost (c : Nat) (ok : Bool)
  /-- Cycle `c` reached `random.choice(self.comments)` for the reply
  (`main.py` line 325). -/
  | cycleChooseReply (c : Nat)
  /-- Cycle `c` ran `_reply_to_comment`, which reported `ok` (`main.py` line 326). -/
  | cycleReply (c : Nat) (ok : Bool)
  /-- Cycle `c` ran `_click_next_button` with `clicks` repetitions
  (`main.py` lines 342-344). -/
  | cycleNext (c : Nat) (clicks : Nat)
  /-- `close_session` completed `session_data["browser"].close()`
  (`main.py` line 762). -/
  | browserClosed
  /-- `close_session` completed `session_data["playwright"].stop()`
  (`main.py` line 764). -/
  | playwrightStopped
deriving DecidableEq, Repr

/-! ## The login retry loop (`login`, `main.py` lines 195-262) -/

/-- What one login attempt's collaborators do, as seen from the `try` body of
the while-loop in `login`.  `setup_browser` either returns all four handles or
raises; after a completed setup the attempt either succeeds (final URL without
the `"login"` marker), fails by the URL marker, or raises. -/
inductive AttemptOutcome where
  /-- The attempt succeeds: `"login" not in page.url` (`main.py` line 235). -/
  | success
  /-- The attempt fails because the URL still contains the login marker
  (`main.py` lines 247-251). -/
  | urlFailure
  /-- An exception is raised after `setup_browser` returned, so the local
  `browser` and `playwright` are set (`main.py` lines 253-259). -/
  | exnAfterSetup
  /-- `setup_browser` itself raises, so the local `browser` and `playwright`
  are still `None` and the except-handler's guards skip both close calls
  (`main.py` lines 199-200, 255-258). -/
  | exnInSetup
deriving DecidableEq, Repr

/-- The while-loop of `login` (`main.py` lines 197-259).  `b n` is what the
collaborators do on attempt number `n`; `remaining` is the number of loop
iterations the condition `current_attempt <= max_login_attempts` still
admits; `cur` is `current_attempt`.  Returns the event trace and the session
(`none` models returning `None` at `main.py` line 262). -/
def loginLoop (b : Nat → AttemptOutcome) :
    Nat → Nat → List Event × Option SessionFields
  | 0, _ => ([], none)
  | n + 1, cur =>
    match b cur with
    | .success => ([Event.attemptStart cur], some ⟨true, true⟩)
    | .urlFailure =>
      let r := loginLoop b n (cur + 1)
      (Event.attemptStart cur :: Event.attemptRelease cur :: r.1, r.2)
    | .exnAfterSetup =>
      let r := loginLoop b n (cur + 1)
      (Event.attemptStart cur :: Event.attemptRelease cur :: r.1, r.2)
    | .exnInSetup =>
      let r := loginLoop b n (cur + 1)
      (Event.attemptStart cur :: r.1, r.2)

/-- `TikTokBot.login` (`main.py` lines 195-262): run the attempt loop starting
at `current_attempt = 1` with at most `max_login_attempts` iterations. -/
def login (cfg : BotConfig) (b : Nat → AttemptOutcome) :
    List Event × Option SessionFields :=
  loginLoop b cfg.max_login_attempts 1

/-- Number of `attemptStart` events in a trace. -/
def attemptCount (evs : List Event) : Nat :=
  evs.countP fun e => match e with | .attemptStart _ => true | _ => false

/-- Number of `attemptRelease` events in a trace: each one is a
browser-close plus driver-stop for one failed attempt. -/
def releaseCount (evs : List Event) : Nat :=
  evs.countP fun e => match e with | .attemptRelease _ => true | _ => false

/-- The trace of `k` failed attempts starting at attempt number `cur`, each
releasing its driver before the next begins. -/
def failTrace (cur : Nat) : Nat → List Event
  | 0 => []
  | n + 1 => Event.attemptStart cur :: Event.attemptRelease cur :: failTrace (cur + 1) n

theorem loginLoop_allFail (b : Nat → AttemptOutcome)
    (hb : ∀ n, b n = .urlFailure ∨ b n = .exnAfterSetup) :
    ∀ (n cur : Nat), loginLoop b n cur = (failTrace cur n, none) := by
  intro n
  induction n with
  | zero => intro cur; rfl
  | succ m ih =>
    intro cur
    rcases hb cur with h | h <;>
      simp [loginLoop, h, ih (cur + 1), failTrace]

theorem attemptCount_failTrace (n cur : Nat) :
    attemptCount (failTrace cur n) = n := by
  induction n generalizing cur with
  | zero => rfl
  | succ m ih =>
    simp only [failTrace, attemptCount, List.countP_cons] at *
    simp [ih (cur + 1)]

theorem releaseCount_failTrace (n cur : Nat) :
    releaseCount (failTrace cur n) = n := by
  induction n generalizing cur with
  | zero => rfl
  | succ m ih =>
    simp only [failTrace, releaseCount, List.countP_cons] at *
    simp [ih (cur + 1)]

/-! ## The comment pool (`FileHandler.read_comments`, `main.py` lines 95-118) -/

/-- The built-in default comment pool, used only when reading the comments
file raises (`main.py` lines 105-116). -/
def default_comments : List String :=
  ["Полностью согласен с вами! 👍",
   "Очень интересная точка зрения!",
   "Спасибо за комментарий! 😊",
   "Вы абсолютно правы!",
   "Это действительно так! 💯",
   "Полностью поддерживаю!",
   "Отличный комментарий! 👏",
   "Согласен на все 100%",
   "Так точно сказано! 👌",
   "Очень хорошо подмечено!"]

/-- Python's `str.strip()`: drop whitespace from both ends.  Written over the
character list so that it evaluates by kernel reduction. -/
def pyStrip (s : String) : String :=
  ⟨((s.data.dropWhile Char.isWhitespace).reverse.dropWhile
      Char.isWhitespace).reverse⟩

/-- `FileHandler.read_comments` (`main.py` lines 95-118).  Input: the comment
file's lines, or `none` when opening/reading raises.  On success the pool is
`[line.strip() for line in f if line.strip()]`; only on a read error does the
`except` branch install `default_comments`. -/
def read_comments (fileLines : Option (List String)) : List String :=
  match fileLines with
  | some lines => (lines.map pyStrip).filter fun l => l ≠ ""
  | none => default_comments

/-- Python's `random.choice(seq)` with the random draw `r` externalized:
raises `IndexError` on an empty sequence, otherwise returns an element. -/
def randomChoice (pool : List String) (r : Nat) : Except Unit String :=
  match pool with
  | [] => .error ()
  | x :: xs => .ok ((x :: xs).getD (r % (x :: xs).length) x)

/-! ## The engagement-cycle loop (`process_videos`, `main.py` lines 264-355) -/

/-- What the collaborators do during one engagement cycle.  The helper steps
`_open_first_video`, `_open_comments`, `_post_comment`, `_reply_to_comment`
and `_click_next_button` catch their own exceptions and report a `Bool`
(`main.py` lines 357-755), so from `process_videos`' view they return a
boolean.  `page.goto` can raise (modelled by `gotoRaises`); the two
`random.choice` calls can raise on an empty pool; their draws are `randComment`
and `randReply`.  `clicks` is the value `random.randint` returned. -/
structure CycleBehavior where
  gotoRaises : Bool := false
  commentsOpened : Bool := true
  postOk : Bool := true
  replyOk : Bool := true
  randComment : Nat := 0
  randReply : Nat := 0
  clicks : Nat := 1
deriving DecidableEq, Repr

/-- One iteration of the `for cycle in range(1, cycles_per_account + 1)` body
(`main.py` lines 275-347), for cycle number `c` over pool `comments`.
Returns the cycle's events and `none` when the body raised (the exception
propagates to `process_videos`' handler). -/
def runCycle (comments : List String) (c : Nat) (b : CycleBehavior) :
    List Event × Option Unit :=
  if b.gotoRaises then ([], none)
  else if b.commentsOpened then
    match randomChoice comments b.randComment with
    | .error _ =>
      ([Event.cycleGoto c, Event.cycleOpenVideo c,
        Event.cycleCommentsOpened c true, Event.cycleChooseComment c], none)
    | .ok _ =>
      match randomChoice comments b.randReply with
      | .error _ =>
        ([Event.cycleGoto c, Event.cycleOpenVideo c,
          Event.cycleCommentsOpened c true, Event.cycleChooseComment c,
          Event.cyclePost c b.postOk, Event.cycleChooseReply c], none)
      | .ok _ =>
        ([Event.cycleGoto c, Event.cycleOpenVideo c,
          Event.cycleCommentsOpened c true, Event.cycleChooseComment c,
          Event.cyclePost c b.postOk, Event.cycleChooseReply c,
          Event.cycleReply c b.replyOk, Event.cycleNext c b.clicks], some ())
  else
    ([Event.cycleGoto c, Event.cycleOpenVideo c,
      Event.cycleCommentsOpened c false, Event.cycleNext c b.clicks], some ())

/-- The cycle for-loop: run `n` more cycles starting at cycle number `c`;
stop early when a cycle raises. -/
def pvLoop (comments : List String) (bs : Nat → CycleBehavior) :
    Nat → Nat → List Event × Option Unit
  | 0, _ => ([], some ())
  | n + 1, c =>
    match runCycle comments c (bs c) with
    | (evs, none) => (evs, none)
    | (evs, some _) =>
      let r := pvLoop comments bs n (c + 1)
      (evs ++ r.1, r.2)

/-- `TikTokBot.process_videos` (`main.py` lines 264-355): run all cycles
inside one `try`; any exception is caught at the top and turns the result
into `False` (`main.py` lines 352-355). -/
def process_videos (cfg : BotConfig) (comments : List String)
    (bs : Nat → CycleBehavior) : List Event × Bool :=
  match pvLoop comments bs cfg.cycles_per_account 1 with
  | (evs, some _) => (evs, true)
  | (evs, none) => (evs, false)

/-! ## Session teardown (`close_session`, `main.py` lines 757-769) -/

/-- Whether the two close calls raise when made. -/
structure CloseBehavior where
  browserCloseRaises : Bool := false
  playwrightStopRaises : Bool := false
deriving DecidableEq, Repr

/-- The `try` body of `close_session` (`main.py` lines 760-767): close the
browser if the key is present, then stop the driver if the key is present.
Both calls sit in the same `try`; the result is `none` when one of them
raised, with the events that had completed by then. -/
def close_session_body (s : Option SessionFields) (b : CloseBehavior) :
    List Event × Option Unit :=
  match s with
  | none => ([], some ())
  | some sd =>
    if sd.hasBrowser then
      if b.browserCloseRaises then ([], none)
      else if sd.hasPlaywright then
        if b.playwrightStopRaises then ([Event.browserClosed], none)
        else ([Event.browserClosed, Event.playwrightStopped], some ())
      else ([Event.browserClosed], some ())
    else if sd.hasPlaywright then
      if b.playwrightStopRaises then ([], none)
      else ([Event.playwrightStopped], some ())
    else ([], some ())

/-- `TikTokBot.close_session` (`main.py` lines 757-769): the single `except`
logs the error and returns normally, so the caller always gets `some ()`. -/
def close_session (s : Option SessionFields) (b : CloseBehavior) :
    List Event × Option Unit :=
  match close_session_body s b with
  | (evs, some u) => (evs, some u)
  | (evs, none) => (evs, some ())

/-! ## One account task (`process_account`, `main.py` lines 771-790) -/

/-- `TikTokBot.process_account` (`main.py` lines 771-790): `login`; on a
session, `process_videos` (its result discarded), then `close_session`, then
`return True`; on `None`, `return False`.  `login`, `process_videos` and
`close_session` each catch their own exceptions, so at this granularity the
outer `except` is not reached after a successful login. -/
def process_account (cfg : BotConfig) (comments : List String)
    (attemptB : Nat → AttemptOutcome) (cycleB : Nat → CycleBehavior)
    (closeB : CloseBehavior) : Bool × List Event :=
  let l := login cfg attemptB
  match l.2 with
  | some sd =>
    let pv := process_videos cfg comments cycleB
    let cl := close_session (some sd) closeB
    (true, l.1 ++ Event.pvInvoked :: pv.1 ++ cl.1)
  | none => (false, l.1 ++ [Event.loginFailed])

/-! ## The orchestrator (`main`, `main.py` lines 793-847) -/

/-- The proxy chosen for the account at index `i` (`main.py` lines 836-839):
`None` when no proxies were loaded, else `proxies[i % len(proxies)]`. -/
def assignProxy (proxies : List Proxy) (i : Nat) : Option Proxy :=
  if proxies.isEmpty then none else proxies[i % proxies.length]?

/-- The task-building loop `for i, account in enumerate(accounts)`
(`main.py` lines 834-840), carrying the running index `i`. -/
def buildTasksGo (proxies : List Proxy) : Nat → List Account → List (Account × Option Proxy)
  | _, [] => []
  | i, a :: rest => (a, assignProxy proxies i) :: buildTasksGo proxies (i + 1) rest

/-- The list of (account, proxy) pairs the orchestrator launches tasks for. -/
def buildTasks (accounts : List Account) (proxies : List Proxy) :
    List (Account × Option Proxy) :=
  buildTasksGo proxies 0 accounts

/-- What one `process_with_semaphore` task delivers to `asyncio.gather`
(`main.py` lines 822-831, 843): its boolean result, or — since
`return_exceptions=True` — the exception captured as a value. -/
inductive TaskOutcome where
  | returned (b : Bool)
  | raised
deriving DecidableEq, Repr

/-- The tail of `main` (`main.py` lines 833-847): gather one outcome per
account (exceptions captured, not propagated), then report
`(len(accounts), sum(1 for result in results if result is True))`. -/
def gatherResults (accounts : List Account) (proxies : List Proxy)
    (run : Account → Option Proxy → TaskOutcome) : List TaskOutcome :=
  (buildTasks accounts proxies).map fun t => run t.1 t.2

/-- The summary line `main` logs (`main.py` lines 846-847): processed count
and success count. -/
def mainTally (accounts : List Account) (proxies : List Proxy)
    (run : Account → Option Proxy → TaskOutcome) : Nat × Nat :=
  (accounts.length,
   (gatherResults accounts proxies run).countP fun r => r = .returned true)

/-! ## The concurrency gate (`main.py` lines 820-843)

`asyncio.Semaphore(config.max_concurrent_accounts)` with
`async with semaphore:` around each account's session
(`process_with_semaphore`).  We give a small-step semantics: a scheduler picks
events; a task may start only when it is pending and the semaphore has a free
unit (taking one), and releases its unit exactly once when it terminates,
successfully or not — `async with` releases on exception too. -/

/-- Status of one account task under the semaphore. -/
inductive TaskStatus where
  /-- Created by `asyncio.gather`, still waiting at `async with semaphore`. -/
  | pending
  /-- Holds one semaphore unit; its account session is active. -/
  | running
  /-- Terminated (result or captured exception); its unit is released. -/
  | finished (outcome : TaskOutcome)
deriving DecidableEq, Repr

/-- The shared state: the semaphore's free-unit count and every task's status. -/
structure OrchState where
  sem : Nat
  tasks : List TaskStatus
deriving DecidableEq, Repr

/-- A scheduler event: task `i` passes `async with semaphore` and starts its
session, or task `i` terminates with `outcome` and releases its unit. -/
inductive OrchEvent where
  | start (i : Nat)
  | finish (i : Nat) (outcome : TaskOutcome)
deriving DecidableEq, Repr

/-- Whether a task currently holds an acquired unit. -/
def isRunning : TaskStatus → Bool
  | .running => true
  | _ => false

/-- Number of tasks currently holding an acquired unit (active sessions). -/
def activeCount (s : OrchState) : Nat :=
  s.tasks.countP isRunning

/-- One scheduler step; `none` when the event is not enabled (a pending task
cannot start while the semaphore is at zero, and only a running task can
finish). -/
def orchStep (s : OrchState) : OrchEvent → Option OrchState
  | .start i =>
    match s.tasks[i]? with
    | some .pending =>
      if 0 < s.sem then some ⟨s.sem - 1, s.tasks.set i .running⟩ else none
    | _ => none
  | .finish i outcome =>
    match s.tasks[i]? with
    | some .running => some ⟨s.sem + 1, s.tasks.set i (.finished outcome)⟩
    | _ => none

/-- Run a whole schedule; `none` when some event was not enabled. -/
def orchRun (s : OrchState) (events : List OrchEvent) : Option OrchState :=
  match events with
  | [] => some s
  | e :: rest =>
    match orchStep s e with
    | some s' => orchRun s' rest
    | none => none

/-- The initial state of `main`'s fan-out: semaphore at
`max_concurrent_accounts`, one pending task per account. -/
def orchInit (cfg : BotConfig) (numAccounts : Nat) : OrchState :=
  ⟨cfg.max_concurrent_accounts, List.replicate numAccounts .pending⟩

/-! ## Helper lemmas -/

/-- The semaphore invariant: free units plus active sessions always equal the
configured ceiling. -/
def orchInv (cap : Nat) (s : OrchState) : Prop :=
  s.sem + activeCount s = cap

theorem orchInv_init (cfg : BotConfig) (n : Nat) :
    orchInv cfg.max_concurrent_accounts (orchInit cfg n) := by
  simp [orchInv, orchInit, activeCount, List.countP_replicate, isRunning]

theorem orchInv_step {cap : Nat} {s s' : OrchState} {e : OrchEvent}
    (hstep : orchStep s e = some s') (hinv : orchInv cap s) : orchInv cap s' := by
  cases e with
  | start i =>
    simp only [orchStep] at hstep
    match hts : s.tasks[i]? with
    | none => rw [hts] at hstep; exact absurd hstep (by simp)
    | some .running => rw [hts] at hstep; exact absurd hstep (by simp)
    | some (.finished o) => rw [hts] at hstep; exact absurd hstep (by simp)
    | some .pending =>
      rw [hts] at hstep
      by_cases hsem : 0 < s.sem
      · simp only [if_pos hsem, Option.some.injEq] at hstep
        obtain ⟨hi, hgeti⟩ := List.getElem?_eq_some.mp hts
        subst hstep
        simp only [orchInv, activeCount] at hinv ⊢
        rw [List.countP_set _ _ _ _ hi, hgeti]
        simp only [isRunning, Bool.false_eq_true, if_false, if_true]
        omega
      · simp [if_neg hsem] at hstep
  | finish i o =>
    simp only [orchStep] at hstep
    match hts : s.tasks[i]? with
    | none => rw [hts] at hstep; exact absurd hstep (by simp)
    | some .pending => rw [hts] at hstep; exact absurd hstep (by simp)
    | some (.finished o') => rw [hts] at hstep; exact absurd hstep (by simp)
    | some .running =>
      rw [hts, Option.some.injEq] at hstep
      obtain ⟨hi, hgeti⟩ := List.getElem?_eq_some.mp hts
      subst hstep
      simp only [orchInv, activeCount] at hinv ⊢
      have hle := List.boole_getElem_le_countP isRunning s.tasks i hi
      rw [List.countP_set _ _ _ _ hi, hgeti]
      rw [hgeti] at hle
      simp only [isRunning, Bool.false_eq_true, if_false, if_true] at hle ⊢
      omega

theorem orchInv_run {cap : Nat} {s s' : OrchState} {events : List OrchEvent}
    (hrun : orchRun s events = some s') (hinv : orchInv cap s) : orchInv cap s' := by
  induction events generalizing s with
  | nil => simp only [orchRun, Option.some.injEq] at hrun; exact hrun ▸ hinv
  | cons e rest ih =>
    simp only [orchRun] at hrun
    match hst : orchStep s e with
    | none => rw [hst] at hrun; exact absurd hrun (by simp)
    | some s₁ =>
      rw [hst] at hrun
      exact ih hrun (orchInv_step hst hinv)

/-- Events that the login loop can emit. -/
def isLoginEvent : Event → Bool
  | .attemptStart _ => true
  | .attemptRelease _ => true
  | _ => false

/-- Events emitted inside an engagement cycle. -/
def isCycleEvent : Event → Bool
  | .cycleGoto _ => true
  | .cycleOpenVideo _ => true
  | .cycleCommentsOpened _ _ => true
  | .cycleChooseComment _ => true
  | .cyclePost _ _ => true
  | .cycleChooseReply _ => true
  | .cycleReply _ _ => true
  | .cycleNext _ _ => true
  | _ => false

theorem loginLoop_events (b : Nat → AttemptOutcome) (n cur : Nat) :
    ∀ e ∈ (loginLoop b n cur).1, isLoginEvent e = true := by
  induction n generalizing cur with
  | zero => intro e he; simp [loginLoop] at he
  | succ m ih =>
    intro e he
    match hb : b cur with
    | .success =>
      simp only [loginLoop, hb] at he
      simp only [List.mem_singleton] at he
      subst he; rfl
    | .urlFailure =>
      simp only [loginLoop, hb, List.mem_cons] at he
      rcases he with rfl | rfl | he
      · rfl
      · rfl
      · exact ih (cur + 1) e he
    | .exnAfterSetup =>
      simp only [loginLoop, hb, List.mem_cons] at he
      rcases he with rfl | rfl | he
      · rfl
      · rfl
      · exact ih (cur + 1) e he
    | .exnInSetup =>
      simp only [loginLoop, hb, List.mem_cons] at he
      rcases he with rfl | he
      · rfl
      · exact ih (cur + 1) e he

/-- The session returned by a successful `login` always carries both the
browser and the playwright handle (`main.py` lines 238-246). -/
theorem loginLoop_result (b : Nat → AttemptOutcome) (n cur : Nat) :
    (loginLoop b n cur).2 = none ∨ (loginLoop b n cur).2 = some ⟨true, true⟩ := by
  induction n generalizing cur with
  | zero => left; rfl
  | succ m ih =>
    match hb : b cur with
    | .success => right; simp [loginLoop, hb]
    | .urlFailure => simpa [loginLoop, hb] using ih (cur + 1)
    | .exnAfterSetup => simpa [loginLoop, hb] using ih (cur + 1)
    | .exnInSetup => simpa [loginLoop, hb] using ih (cur + 1)

theorem loginLoop_none_of_noSuccess (b : Nat → AttemptOutcome)
    (hb : ∀ n, b n ≠ .success) (n cur : Nat) :
    (loginLoop b n cur).2 = none := by
  induction n generalizing cur with
  | zero => rfl
  | succ m ih =>
    match hbc : b cur with
    | .success => exact absurd hbc (hb cur)
    | .urlFailure => simpa [loginLoop, hbc] using ih (cur + 1)
    | .exnAfterSetup => simpa [loginLoop, hbc] using ih (cur + 1)
    | .exnInSetup => simpa [loginLoop, hbc] using ih (cur + 1)

theorem runCycle_events (comments : List String) (c : Nat) (b : CycleBehavior) :
    ∀ e ∈ (runCycle comments c b).1, isCycleEvent e = true := by
  intro e he
  unfold runCycle at he
  split at he
  · simp at he
  · split at he
    · split at he
      · fin_cases he <;> rfl
      · split at he
        · fin_cases he <;> rfl
        · fin_cases he <;> rfl
    · fin_cases he <;> rfl

theorem pvLoop_events (comments : List String) (bs : Nat → CycleBehavior)
    (n c : Nat) : ∀ e ∈ (pvLoop comments bs n c).1, isCycleEvent e = true := by
  induction n generalizing c with
  | zero => intro e he; simp [pvLoop] at he
  | succ m ih =>
    intro e he
    unfold pvLoop at he
    match hrc : runCycle comments c (bs c) with
    | (evs, none) =>
      rw [hrc] at he
      exact runCycle_events comments c (bs c) e (by rw [hrc]; exact he)
    | (evs, some u) =>
      rw [hrc] at he
      simp only [List.mem_append] at he
      rcases he with he | he
      · exact runCycle_events comments c (bs c) e (by rw [hrc]; exact he)
      · exact ih (c + 1) e he

theorem buildTasksGo_length (proxies : List Proxy) (j : Nat)
    (accounts : List Account) :
    (buildTasksGo proxies j accounts).length = accounts.length := by
  induction accounts generalizing j with
  | nil => rfl
  | cons a rest ih => simp [buildTasksGo, ih]

theorem buildTasksGo_getElem? (proxies : List Proxy) (accounts : List Account)
    (j i : Nat) :
    (buildTasksGo proxies j accounts)[i]? =
      (accounts[i]?).map fun a => (a, assignProxy proxies (j + i)) := by
  induction accounts generalizing j i with
  | nil => simp [buildTasksGo]
  | cons a rest ih =>
    cases i with
    | zero => simp [buildTasksGo]
    | succ k =>
      simp only [buildTasksGo, List.getElem?_cons_succ, ih (j + 1) k]
      have h : j + 1 + k = j + (k + 1) := by omega
      rw [h]

/-- The comment-posting step of a cycle. -/
def isPostEvent : Event → Bool
  | .cyclePost _ _ => true
  | _ => false

/-- The reply step of a cycle. -/
def isReplyEvent : Event → Bool
  | .cycleReply _ _ => true
  | _ => false

/-- A `random.choice` call from either the comment or the reply step. -/
def isChooseEvent : Event → Bool
  | .cycleChooseComment _ => true
  | .cycleChooseReply _ => true
  | _ => false

/-- The advance-feed (_click_next_button) step of a cycle. -/
def isNextEvent : Event → Bool
  | .cycleNext _ _ => true
  | _ => false

/-- An `_open_comments` step that reported failure (the logged failure). -/
def isOpenFailEvent : Event → Bool
  | .cycleCommentsOpened _ ok => !ok
  | _ => false

theorem runCycle_skip (comments : List String) (c : Nat) (b : CycleBehavior)
    (hg : b.gotoRaises = false) (hc : b.commentsOpened = false) :
    runCycle comments c b =
      ([Event.cycleGoto c, Event.cycleOpenVideo c,
        Event.cycleCommentsOpened c false, Event.cycleNext c b.clicks],
       some ()) := by
  obtain ⟨g, co, po, ro, rc, rr, cl⟩ := b
  simp only at hg hc
  subst hg; subst hc
  rfl

theorem pvLoop_skip (comments : List String) (bs : Nat → CycleBehavior)
    (hg : ∀ c, (bs c).gotoRaises = false)
    (hc : ∀ c, (bs c).commentsOpened = false) (n : Nat) : ∀ c,
    (pvLoop comments bs n c).2 = some () ∧
    (pvLoop comments bs n c).1.countP isNextEvent = n ∧
    (pvLoop comments bs n c).1.countP isOpenFailEvent = n ∧
    (pvLoop comments bs n c).1.countP isPostEvent = 0 ∧
    (pvLoop comments bs n c).1.countP isReplyEvent = 0 ∧
    (pvLoop comments bs n c).1.countP isChooseEvent = 0 := by
  induction n with
  | zero => intro c; refine ⟨rfl, rfl, rfl, rfl, rfl, rfl⟩
  | succ m ih =>
    intro c
    obtain ⟨ih1, ih2, ih3, ih4, ih5, ih6⟩ := ih (c + 1)
    simp only [pvLoop, runCycle_skip comments c (bs c) (hg c) (hc c)]
    simp [List.countP_append, List.countP_cons, isNextEvent, isOpenFailEvent,
      isPostEvent, isReplyEvent, isChooseEvent, ih1, ih2, ih3, ih4, ih5, ih6]

theorem close_session_full (b : CloseBehavior)
    (hb : b.browserCloseRaises = false) (hp : b.playwrightStopRaises = false) :
    close_session (some ⟨true, true⟩) b =
      ([Event.browserClosed, Event.playwrightStopped], some ()) := by
  obtain ⟨bc, ps⟩ := b
  simp only at hb hp
  subst hb; subst hp
  rfl

theorem close_session_total (s : Option SessionFields) (b : CloseBehavior) :
    (close_session s b).2 = some () := by
  unfold close_session
  match h : close_session_body s b with
  | (evs, some u) => rfl
  | (evs, none) => rfl

theorem loginLoop_count_eq_zero (e : Event) (he : isLoginEvent e = false)
    (b : Nat → AttemptOutcome) (n cur : Nat) :
    (loginLoop b n cur).1.count e = 0 := by
  rw [List.count_eq_zero]
  intro hmem
  have := loginLoop_events b n cur e hmem
  rw [he] at this
  cases this

theorem pvLoop_count_eq_zero (e : Event) (he : isCycleEvent e = false)
    (comments : List String) (bs : Nat → CycleBehavior) (n c : Nat) :
    (pvLoop comments bs n c).1.count e = 0 := by
  rw [List.count_eq_zero]
  intro hmem
  have := pvLoop_events comments bs n c e hmem
  rw [he] at this
  cases this

theorem process_videos_events (cfg : BotConfig) (comments : List String)
    (bs : Nat → CycleBehavior) :
    (process_videos cfg comments bs).1 =
      (pvLoop comments bs cfg.cycles_per_account 1).1 := by
  unfold process_videos
  rcases h : pvLoop comments bs cfg.cycles_per_account 1 with ⟨evs, ro⟩
  cases ro <;> simp

theorem loginLoop_countP_eq_zero (p : Event → Bool)
    (hp : ∀ e, isLoginEvent e = true → p e = false)
    (b : Nat → AttemptOutcome) (n cur : Nat) :
    (loginLoop b n cur).1.countP p = 0 := by
  rw [List.countP_eq_zero]
  intro e hmem
  have := loginLoop_events b n cur e hmem
  simp [hp e this]

theorem read_comments_blank (content : List String)
    (hblank : ∀ l ∈ content, pyStrip l = "") :
    read_comments (some content) = [] := by
  unfold read_comments
  induction content with
  | nil => rfl
  | cons x xs ih =>
    have hx := hblank x (List.mem_cons_self x xs)
    simp only [List.map_cons, List.filter_cons, hx]
    simp only [ne_eq, not_true_eq_false, decide_False, Bool.false_eq_true,
      if_false]
    exact ih fun l hl => hblank l (List.mem_cons_of_mem x hl)

theorem runCycle_emptyPool (c : Nat) (b : CycleBehavior)
    (hg : b.gotoRaises = false) (hc : b.commentsOpened = true) :
    runCycle [] c b =
      ([Event.cycleGoto c, Event.cycleOpenVideo c,
        Event.cycleCommentsOpened c true, Event.cycleChooseComment c],
       none) := by
  obtain ⟨g, co, po, ro, rc, rr, cl⟩ := b
  simp only at hg hc
  subst hg; subst hc
  rfl

/-! ## Claim theorems -/

/-- C1: for every run with configured limit `max_concurrent_accounts` and any
schedule of task starts and terminations, at no reachable state are more than
`max_concurrent_accounts` account sessions active simultaneously: each task
takes one gate unit before its session starts and returns exactly one unit
when it terminates, whatever the outcome. -/
theorem semaphore_bounds_active_sessions (cfg : BotConfig) (numAccounts : Nat)
    (events : List OrchEvent) (s : OrchState)
    (hrun : orchRun (orchInit cfg numAccounts) events = some s) :
    activeCount s ≤ cfg.max_concurrent_accounts := by
  have hinv := orchInv_run hrun (orchInv_init cfg numAccounts)
  simp only [orchInv] at hinv
  omega

/-- C1 witness: a concrete schedule over two accounts under the default
ceiling of three reaches a state with one active session. -/
theorem semaphore_bounds_active_sessions_witness :
    orchRun (orchInit defaultConfig 2)
        [OrchEvent.start 0, OrchEvent.finish 0 (TaskOutcome.returned true),
         OrchEvent.start 1] =
      some ⟨2, [TaskStatus.finished (TaskOutcome.returned true),
                TaskStatus.running]⟩ ∧
    activeCount ⟨2, [TaskStatus.finished (TaskOutcome.returned true),
                     TaskStatus.running]⟩ ≤
      defaultConfig.max_concurrent_accounts :=
  ⟨by decide,
   semaphore_bounds_active_sessions defaultConfig 2
     [OrchEvent.start 0, OrchEvent.finish 0 (TaskOutcome.returned true),
      OrchEvent.start 1]
     ⟨2, [TaskStatus.finished (TaskOutcome.returned true),
          TaskStatus.running]⟩ (by decide)⟩

/-- C3 counterexample: with `max_login_attempts = 1` and a collaborator whose
driver setup raises on every attempt, login makes one attempt and returns
`None`, but performs zero releases, not one per attempt: in the source the
except-handler's `if browser:` / `if playwright:` guards are both `None` when
`setup_browser` itself raised (`main.py` lines 199-200, 253-258). -/
theorem login_setup_exception_release_counterexample :
    (login { defaultConfig with max_login_attempts := 1 }
        (fun _ => AttemptOutcome.exnInSetup)).2 = none ∧
    attemptCount (login { defaultConfig with max_login_attempts := 1 }
        (fun _ => AttemptOutcome.exnInSetup)).1 = 1 ∧
    releaseCount (login { defaultConfig with max_login_attempts := 1 }
        (fun _ => AttemptOutcome.exnInSetup)).1 = 0 ∧
    ¬ releaseCount (login { defaultConfig with max_login_attempts := 1 }
        (fun _ => AttemptOutcome.exnInSetup)).1 = 1 := by
  decide

/-- C3 amended: for every configuration with `max_login_attempts = k` and
every collaborator that fails every attempt either by a URL still containing
the login marker or by an exception raised after the driver setup completed,
login performs exactly k attempts, its trace is exactly attempt-then-release
repeated k times (so each attempt's driver is released before the next attempt
starts, k releases in total), and it returns `None`.  An attempt whose driver
setup itself raises performs no release for that attempt. -/
theorem login_always_failing_attempts_and_releases (cfg : BotConfig)
    (b : Nat → AttemptOutcome)
    (hb : ∀ n, b n = AttemptOutcome.urlFailure ∨
               b n = AttemptOutcome.exnAfterSetup) :
    (login cfg b).2 = none ∧
    (login cfg b).1 = failTrace 1 cfg.max_login_attempts ∧
    attemptCount (login cfg b).1 = cfg.max_login_attempts ∧
    releaseCount (login cfg b).1 = cfg.max_login_attempts := by
  have h := loginLoop_allFail b hb cfg.max_login_attempts 1
  unfold login
  rw [h]
  exact ⟨rfl, rfl, attemptCount_failTrace _ _, releaseCount_failTrace _ _⟩

/-- C3 witness: with the default three attempts and a collaborator that always
fails by the URL marker, login makes three attempts and three releases. -/
theorem login_always_failing_attempts_and_releases_witness :
    (login defaultConfig (fun _ => AttemptOutcome.urlFailure)).2 = none ∧
    (login defaultConfig (fun _ => AttemptOutcome.urlFailure)).1 =
      failTrace 1 defaultConfig.max_login_attempts ∧
    attemptCount (login defaultConfig (fun _ => AttemptOutcome.urlFailure)).1 =
      defaultConfig.max_login_attempts ∧
    releaseCount (login defaultConfig (fun _ => AttemptOutcome.urlFailure)).1 =
      defaultConfig.max_login_attempts :=
  login_always_failing_attempts_and_releases defaultConfig
    (fun _ => AttemptOutcome.urlFailure) (fun _ => Or.inl rfl)

/-- C5: the account at index i is deterministically assigned the proxy at
index `i mod (m+1)` when the proxy list has length m+1 (and that entry
exists); with an empty proxy list every account gets no proxy.  The
assignment is a function of the index alone. -/
theorem proxy_round_robin_assignment (accounts : List Account)
    (proxies : List Proxy) (m i : Nat) (hi : i < accounts.length)
    (hm : proxies.length = m + 1) :
    (buildTasks accounts proxies)[i]? =
      (accounts[i]?).map (fun a => (a, proxies[i % (m + 1)]?)) ∧
    (proxies[i % (m + 1)]?).isSome = true ∧
    (buildTasks accounts [])[i]? = (accounts[i]?).map fun a => (a, none) := by
  refine ⟨?_, ?_, ?_⟩
  · rw [buildTasks, buildTasksGo_getElem?]
    simp only [assignProxy, Nat.zero_add, hm]
    have hne : proxies.isEmpty = false := by
      cases proxies
      · simp at hm
      · rfl
    rw [hne]
    simp
  · have hlt : i % (m + 1) < proxies.length := by
      rw [hm]; exact Nat.mod_lt _ (Nat.succ_pos m)
    rw [List.getElem?_eq_getElem hlt]
    rfl
  · rw [buildTasks, buildTasksGo_getElem?]
    rfl

/-- C5 witness: three accounts over two proxies; account 2 gets proxy 0. -/
theorem proxy_round_robin_assignment_witness :
    (buildTasks
        [⟨"a", "pa"⟩, ⟨"b", "pb"⟩, ⟨"c", "pc"⟩]
        [⟨"h1:1", none, none⟩, ⟨"h2:2", none, none⟩])[2]? =
      (([⟨"a", "pa"⟩, ⟨"b", "pb"⟩, ⟨"c", "pc"⟩] :
          List Account)[2]?).map
        (fun a => (a, ([⟨"h1:1", none, none⟩, ⟨"h2:2", none, none⟩] :
          List Proxy)[2 % (1 + 1)]?)) ∧
    (([⟨"h1:1", none, none⟩, ⟨"h2:2", none, none⟩] :
        List Proxy)[2 % (1 + 1)]?).isSome = true ∧
    (buildTasks [⟨"a", "pa"⟩, ⟨"b", "pb"⟩, ⟨"c", "pc"⟩] [])[2]? =
      (([⟨"a", "pa"⟩, ⟨"b", "pb"⟩, ⟨"c", "pc"⟩] :
          List Account)[2]?).map fun a => (a, none) :=
  proxy_round_robin_assignment
    [⟨"a", "pa"⟩, ⟨"b", "pb"⟩, ⟨"c", "pc"⟩]
    [⟨"h1:1", none, none⟩, ⟨"h2:2", none, none⟩] 1 2
    (by decide) (by decide)

/-- C7 counterexample: on a full session, when closing the browser raises and
stopping the driver would succeed, `close_session` swallows the error but the
driver is never stopped: both calls share one `try`, so the exception from
`browser.close()` jumps over `playwright.stop()` (`main.py` lines 759-769). -/
theorem close_session_browser_error_blocks_stop :
    (close_session (some ⟨true, true⟩) ⟨true, false⟩).2 = some () ∧
    Event.browserClosed ∉ (close_session (some ⟨true, true⟩) ⟨true, false⟩).1 ∧
    Event.playwrightStopped ∉
      (close_session (some ⟨true, true⟩) ⟨true, false⟩).1 := by
  decide

/-- C7 amended: `close_session` never propagates an error raised during
closing and is safe on partially-closed sessions (it closes exactly the
sub-resources present when no close call raises, and tolerates a missing
session outright); however, an error raised while closing the browser is
caught by the single shared handler, so the driver stop is skipped rather
than still performed. -/
theorem close_session_swallows_close_errors (sd : SessionFields)
    (b : CloseBehavior) :
    (close_session (some sd) b).2 = some () ∧
    (close_session none b).2 = some () ∧
    (b.browserCloseRaises = false → b.playwrightStopRaises = false →
      ((Event.browserClosed ∈ (close_session (some sd) b).1 ↔
          sd.hasBrowser = true) ∧
       (Event.playwrightStopped ∈ (close_session (some sd) b).1 ↔
          sd.hasPlaywright = true))) ∧
    (b.browserCloseRaises = true → sd.hasBrowser = true →
      Event.playwrightStopped ∉ (close_session (some sd) b).1) := by
  obtain ⟨hb, hp⟩ := sd
  obtain ⟨bc, ps⟩ := b
  cases hb <;> cases hp <;> cases bc <;> cases ps <;> decide

/-- C7 amended witness: on a full session with well-behaved close calls, both
the browser close and the driver stop happen. -/
theorem close_session_swallows_close_errors_witness :
    (Event.browserClosed ∈
        (close_session (some ⟨true, true⟩) ⟨false, false⟩).1 ↔ true = true) ∧
    (Event.playwrightStopped ∈
        (close_session (some ⟨true, true⟩) ⟨false, false⟩).1 ↔ true = true) :=
  (close_session_swallows_close_errors ⟨true, true⟩ ⟨false, false⟩).2.2.1
    rfl rfl

/-- C2: for every account whose login succeeds, `process_account` releases
the SessionHandle — the browser is closed and the driver stopped exactly
once — on every exit path, including when an unexpected exception is raised
after login inside the engagement phase (such an exception is caught by
`process_videos`' own handler, so control still reaches `close_session`).
The close calls themselves are assumed well-behaved here (see C7 for what
happens when they raise). -/
theorem session_released_after_successful_login (cfg : BotConfig)
    (comments : List String) (attemptB : Nat → AttemptOutcome)
    (cycleB : Nat → CycleBehavior) (closeB : CloseBehavior)
    (hlogin : (login cfg attemptB).2.isSome = true)
    (hb : closeB.browserCloseRaises = false)
    (hp : closeB.playwrightStopRaises = false) :
    (process_account cfg comments attemptB cycleB closeB).2.count
        Event.browserClosed = 1 ∧
    (process_account cfg comments attemptB cycleB closeB).2.count
        Event.playwrightStopped = 1 := by
  have hres := loginLoop_result attemptB cfg.max_login_attempts 1
  have hcb : (login cfg attemptB).1.count Event.browserClosed = 0 :=
    loginLoop_count_eq_zero Event.browserClosed rfl attemptB
      cfg.max_login_attempts 1
  have hcp : (login cfg attemptB).1.count Event.playwrightStopped = 0 :=
    loginLoop_count_eq_zero Event.playwrightStopped rfl attemptB
      cfg.max_login_attempts 1
  have hvb : (process_videos cfg comments cycleB).1.count
      Event.browserClosed = 0 := by
    rw [process_videos_events]
    exact pvLoop_count_eq_zero Event.browserClosed rfl comments cycleB _ 1
  have hvp : (process_videos cfg comments cycleB).1.count
      Event.playwrightStopped = 0 := by
    rw [process_videos_events]
    exact pvLoop_count_eq_zero Event.playwrightStopped rfl comments cycleB _ 1
  rcases hres with hnone | hsome
  · have : (login cfg attemptB).2 = none := hnone
    rw [this] at hlogin
    cases hlogin
  · have hl2 : (login cfg attemptB).2 = some ⟨true, true⟩ := hsome
    unfold process_account
    simp only [hl2, close_session_full closeB hb hp]
    constructor <;>
      simp [List.count_append, List.count_cons, hcb, hcp, hvb, hvp]

/-- C2 witness: a login that succeeds and an engagement phase whose first
cycle raises; the session's browser is still closed and its driver stopped
exactly once. -/
theorem session_released_after_successful_login_witness :
    (process_account defaultConfig [] (fun _ => AttemptOutcome.success)
        (fun _ => { gotoRaises := true }) {}).2.count
        Event.browserClosed = 1 ∧
    (process_account defaultConfig [] (fun _ => AttemptOutcome.success)
        (fun _ => { gotoRaises := true }) {}).2.count
        Event.playwrightStopped = 1 :=
  session_released_after_successful_login defaultConfig []
    (fun _ => AttemptOutcome.success) (fun _ => { gotoRaises := true }) {}
    (by decide) rfl rfl

/-- C4: the orchestrator produces exactly one result per account; the
reported processed-count is the number of input accounts; the reported
success-count counts exactly the tasks whose outcome is `returned true`
(captured exceptions and `returned false` are not counted); and the result
at index i is determined by account i's own task outcome alone —
`gather(..., return_exceptions=True)` captures another account's exception
as that account's own entry, altering nothing else. -/
theorem orchestrator_one_result_per_account (accounts : List Account)
    (proxies : List Proxy) (run : Account → Option Proxy → TaskOutcome) :
    (gatherResults accounts proxies run).length = accounts.length ∧
    (mainTally accounts proxies run).1 = accounts.length ∧
    (mainTally accounts proxies run).2 =
      (gatherResults accounts proxies run).countP
        (fun r => r = TaskOutcome.returned true) ∧
    ∀ i, i < accounts.length →
      (gatherResults accounts proxies run)[i]? =
        (accounts[i]?).map fun a => run a (assignProxy proxies i) := by
  refine ⟨?_, rfl, rfl, ?_⟩
  · simp [gatherResults, buildTasks, buildTasksGo_length]
  · intro i hi
    simp only [gatherResults, List.getElem?_map, buildTasks,
      buildTasksGo_getElem?, Nat.zero_add]
    cases accounts[i]? <;> rfl

/-- C4 witness: two accounts, no proxies, the first task raising — the run
still yields two results with the raising account captured in place. -/
theorem orchestrator_one_result_per_account_witness :
    (gatherResults [⟨"a", "x"⟩, ⟨"b", "y"⟩] []
        (fun a _ => if a.email = "a" then TaskOutcome.raised
                    else TaskOutcome.returned true))[0]? =
      ((([⟨"a", "x"⟩, ⟨"b", "y"⟩] : List Account)[0]?).map fun a =>
        (fun (a : Account) (_ : Option Proxy) =>
          if a.email = "a" then TaskOutcome.raised
          else TaskOutcome.returned true) a (assignProxy [] 0)) :=
  (orchestrator_one_result_per_account [⟨"a", "x"⟩, ⟨"b", "y"⟩] []
    (fun a _ => if a.email = "a" then TaskOutcome.raised
                else TaskOutcome.returned true)).2.2.2 0 (by decide)

/-- C6: for every account whose login exhausts all attempts (no attempt
succeeds), `process_account` returns a failure result and never invokes
`process_videos`: no engagement-cycle step of any kind is performed. -/
theorem login_failure_skips_cycles (cfg : BotConfig) (comments : List String)
    (attemptB : Nat → AttemptOutcome) (cycleB : Nat → CycleBehavior)
    (closeB : CloseBehavior)
    (hb : ∀ n, attemptB n ≠ AttemptOutcome.success) :
    (process_account cfg comments attemptB cycleB closeB).1 = false ∧
    (process_account cfg comments attemptB cycleB closeB).2.count
        Event.pvInvoked = 0 ∧
    (process_account cfg comments attemptB cycleB closeB).2.countP
        isCycleEvent = 0 := by
  have hnone : (login cfg attemptB).2 = none :=
    loginLoop_none_of_noSuccess attemptB hb cfg.max_login_attempts 1
  have hcount : (login cfg attemptB).1.count Event.pvInvoked = 0 :=
    loginLoop_count_eq_zero Event.pvInvoked rfl attemptB
      cfg.max_login_attempts 1
  have hcountP : (login cfg attemptB).1.countP isCycleEvent = 0 :=
    loginLoop_countP_eq_zero isCycleEvent
      (by intro e he; cases e <;> simp_all [isLoginEvent, isCycleEvent])
      attemptB cfg.max_login_attempts 1
  refine ⟨?_, ?_, ?_⟩
  · unfold process_account
    simp [hnone]
  · unfold process_account
    simp [hnone, List.count_append, List.count_cons, List.count_nil, hcount]
  · unfold process_account
    simp [hnone, List.countP_append, List.countP_cons, hcountP, isCycleEvent]

/-- C6 witness: with the default three attempts all failing by the URL
marker, the account is reported failed and no cycle step ever runs. -/
theorem login_failure_skips_cycles_witness :
    (process_account defaultConfig ["hi"] (fun _ => AttemptOutcome.urlFailure)
        (fun _ => {}) {}).1 = false ∧
    (process_account defaultConfig ["hi"] (fun _ => AttemptOutcome.urlFailure)
        (fun _ => {}) {}).2.count Event.pvInvoked = 0 ∧
    (process_account defaultConfig ["hi"] (fun _ => AttemptOutcome.urlFailure)
        (fun _ => {}) {}).2.countP isCycleEvent = 0 :=
  login_failure_skips_cycles defaultConfig ["hi"]
    (fun _ => AttemptOutcome.urlFailure) (fun _ => {}) {}
    (fun _ h => nomatch h)

/-- C8: in every engagement cycle whose open-comment-panel step reports
failure (and no step raises), the failure is logged, the post-comment and
reply steps — including their `random.choice` calls — are skipped, yet the
advance-feed step still runs in every cycle; the loop completes all
configured cycles and `process_videos` returns success. -/
theorem open_comments_failure_still_advances (cfg : BotConfig)
    (comments : List String) (bs : Nat → CycleBehavior)
    (hg : ∀ c, (bs c).gotoRaises = false)
    (hc : ∀ c, (bs c).commentsOpened = false) :
    (process_videos cfg comments bs).2 = true ∧
    (process_videos cfg comments bs).1.countP isOpenFailEvent =
      cfg.cycles_per_account ∧
    (process_videos cfg comments bs).1.countP isNextEvent =
      cfg.cycles_per_account ∧
    (process_videos cfg comments bs).1.countP isPostEvent = 0 ∧
    (process_videos cfg comments bs).1.countP isReplyEvent = 0 ∧
    (process_videos cfg comments bs).1.countP isChooseEvent = 0 := by
  obtain ⟨h1, h2, h3, h4, h5, h6⟩ :=
    pvLoop_skip comments bs hg hc cfg.cycles_per_account 1
  have hev := process_videos_events cfg comments bs
  have hres : (process_videos cfg comments bs).2 = true := by
    unfold process_videos
    rcases hpl : pvLoop comments bs cfg.cycles_per_account 1 with ⟨evs, ro⟩
    rw [hpl] at h1
    cases ro
    · exact absurd h1 (by simp)
    · simp
  rw [hev]
  exact ⟨hres, h3, h2, h4, h5, h6⟩

/-- C8 witness: ten default cycles whose open-comments step always fails
still advance the feed ten times and never post, reply or choose a comment. -/
theorem open_comments_failure_still_advances_witness :
    (process_videos defaultConfig []
        (fun _ => { commentsOpened := false })).2 = true ∧
    (process_videos defaultConfig []
        (fun _ => { commentsOpened := false })).1.countP isOpenFailEvent =
      defaultConfig.cycles_per_account ∧
    (process_videos defaultConfig []
        (fun _ => { commentsOpened := false })).1.countP isNextEvent =
      defaultConfig.cycles_per_account ∧
    (process_videos defaultConfig []
        (fun _ => { commentsOpened := false })).1.countP isPostEvent = 0 ∧
    (process_videos defaultConfig []
        (fun _ => { commentsOpened := false })).1.countP isReplyEvent = 0 ∧
    (process_videos defaultConfig []
        (fun _ => { commentsOpened := false })).1.countP isChooseEvent = 0 :=
  open_comments_failure_still_advances defaultConfig []
    (fun _ => { commentsOpened := false }) (fun _ => rfl) (fun _ => rfl)

/-- C9: for every account whose login succeeds, `process_account` returns a
success result regardless of the engagement phase's outcome —
`process_videos`' return value is discarded at `main.py` line 779, so even an
engagement phase aborted by an exception (which makes `process_videos`
return `False`) leaves the account counted as succeeded. -/
theorem login_success_yields_success_result (cfg : BotConfig)
    (comments : List String) (attemptB : Nat → AttemptOutcome)
    (cycleB : Nat → CycleBehavior) (closeB : CloseBehavior)
    (hlogin : (login cfg attemptB).2.isSome = true) :
    (process_account cfg comments attemptB cycleB closeB).1 = true := by
  unfold process_account
  rcases hl : (login cfg attemptB).2 with _ | sd
  · rw [hl] at hlogin
    cases hlogin
  · simp [hl]

/-- C9 witness: the engagement phase fails (its first cycle raises, so
`process_videos` returns `False`), yet the account's result is success. -/
theorem login_success_yields_success_result_witness :
    (process_videos defaultConfig []
        (fun _ => { gotoRaises := true })).2 = false ∧
    (process_account defaultConfig [] (fun _ => AttemptOutcome.success)
        (fun _ => { gotoRaises := true }) {}).1 = true :=
  ⟨by decide,
   login_success_yields_success_result defaultConfig []
     (fun _ => AttemptOutcome.success) (fun _ => { gotoRaises := true }) {}
     (by decide)⟩

/-- C10: when the comments file reads successfully but every line is blank,
the loaded pool is empty — the built-in default pool is installed only by the
read-error branch, never for a file that merely yields no entries — and any
cycle that opens the comment panel then raises at `random.choice` on the
empty pool: the choose step errors, the post step is never confirmed, and the
cycle aborts. -/
theorem blank_comments_file_empty_pool (content : List String) (r c : Nat)
    (b : CycleBehavior) (hblank : ∀ l ∈ content, pyStrip l = "")
    (hg : b.gotoRaises = false) (hc : b.commentsOpened = true) :
    read_comments (some content) = [] ∧
    read_comments none = default_comments ∧
    default_comments ≠ [] ∧
    randomChoice (read_comments (some content)) r = Except.error () ∧
    (runCycle (read_comments (some content)) c b).2 = none ∧
    (runCycle (read_comments (some content)) c b).1.countP isPostEvent = 0 ∧
    (runCycle (read_comments (some content)) c b).1.countP
      isReplyEvent = 0 := by
  have hemp := read_comments_blank content hblank
  rw [hemp]
  refine ⟨rfl, rfl, ?_, rfl, ?_, ?_, ?_⟩
  · exact List.cons_ne_nil _ _
  · rw [runCycle_emptyPool c b hg hc]
  · rw [runCycle_emptyPool c b hg hc]
    simp [isPostEvent, List.countP_cons]
  · rw [runCycle_emptyPool c b hg hc]
    simp [isReplyEvent, List.countP_cons]

/-- C10 witness: a comments file of one empty and one whitespace-only line
yields the empty pool; the default pool stays unused and the first cycle's
choose step raises. -/
theorem blank_comments_file_empty_pool_witness :
    read_comments (some ["", "  "]) = [] ∧
    read_comments none = default_comments ∧
    default_comments ≠ [] ∧
    randomChoice (read_comments (some ["", "  "])) 0 = Except.error () ∧
    (runCycle (read_comments (some ["", "  "])) 1 {}).2 = none ∧
    (runCycle (read_comments (some ["", "  "])) 1 {}).1.countP
      isPostEvent = 0 ∧
    (runCycle (read_comments (some ["", "  "])) 1 {}).1.countP
      isReplyEvent = 0 :=
  blank_comments_file_empty_pool ["", "  "] 0 1 {}
    (by intro l hl; fin_cases hl <;> decide) rfl rfl

end TTSpamer
